import Mathlib

/-
Verification development for the musicbot repository (Go).

Strings from the Go source are embedded as lists of characters so that every
operation (prefix test, trimming, whitespace splitting, lowercasing) is a
structurally recursive Lean function that the kernel can evaluate.  Machine
floats appearing in loudness comparisons are embedded as rationals: every
constant involved (70.0, -70.0, -5.0, 0) is exactly representable, so the
comparison semantics agree.  Stateful Go code is embedded as explicit state
passing; outcomes of external gateway calls (message send, delete, lookback
query) are supplied as oracle records so that each code path is a total
function of its inputs.
-/

namespace Musicbot

/-- Str is the embedding of Go strings: a list of characters. -/
abbrev Str := List Char

/-- Conversion helper used to write embedded string constants. -/
def str (s : String) : Str := s.toList

/-- Embedding of Go strings.HasPrefix restricted to the list representation. -/
def listPrefixOf : Str → Str → Bool
  | [], _ => true
  | _ :: _, [] => false
  | a :: ps, b :: ss => a == b && listPrefixOf ps ss

/-- Embedding of Go strings.TrimSpace: drop whitespace from both ends. -/
def trimChars (cs : Str) : Str :=
  ((cs.dropWhile Char.isWhitespace).reverse.dropWhile Char.isWhitespace).reverse

/-- Embedding of Go strings.ToLower, character by character. -/
def lowerChars (cs : Str) : Str := cs.map Char.toLower

/-- Accumulator-based splitter behind fieldsChars. -/
def fieldsAux (acc : Str) : Str → List Str
  | [] => if acc.isEmpty then [] else [acc.reverse]
  | c :: rest =>
    if c.isWhitespace then
      if acc.isEmpty then fieldsAux [] rest
      else acc.reverse :: fieldsAux [] rest
    else fieldsAux (c :: acc) rest

/-- Embedding of Go strings.Fields: split on runs of whitespace, no empty fields. -/
def fieldsChars (cs : Str) : List Str := fieldsAux [] cs

/-- Global default command prefix, from bot.go line 19 and guild.go line 386. -/
def defaultPfx : Str := str "#!"

/-
Claim C1 context.  The playback queue itself lives in the external
discordvoice player package and is absent from the sources; only its callers
appear: NewGuildPlayer configures player.QueueLength(10) at guild_player.go
lines 91 to 94, and Guild configures dcv.QueueLength(10) at guild.go lines
125 to 130.
-/

/-- Queue capacity, from the caller configuration QueueLength(10) at
guild_player.go lines 91 to 94 and guild.go lines 125 to 130. -/
def queueCapacity : Nat := 10

/-- Error returned by an admission attempt on a full queue. -/
inductive PutErr where
  | queueFull
  deriving DecidableEq, Repr

/-- Modelled from the spec: the bounded FIFO admission of the discordvoice
player, whose implementation is not under the sources.  Put on a full queue
fails with queueFull, never blocks, and a successful put appends at the
tail. -/
def queuePut {α : Type} (q : List α) (x : α) : Except PutErr (List α) :=
  if queueCapacity ≤ q.length then Except.error PutErr.queueFull
  else Except.ok (q ++ [x])

/-- Sequence of admissions, stopping at the first failure. -/
def queuePutAll {α : Type} : List α → List α → Except PutErr (List α)
  | q, [] => Except.ok q
  | q, x :: rest =>
    match queuePut q x with
    | Except.error e => Except.error e
    | Except.ok q2 => queuePutAll q2 rest

/-- Modelled from the spec: dequeue removes the element at the head of the
FIFO. -/
def queueTake {α : Type} : List α → Option (α × List α)
  | [] => none
  | x :: xs => some (x, xs)

/-
Claim C2 context.  openSrcFunc at guild_player.go lines 255 to 267 decides
whether the loudnorm audio filter is attached to the encoder options.
-/

/-- Filter condition written in openSrcFunc, guild_player.go line 262:
loudness greater or equal 70.0 and loudness less or equal -5.0.  The source
literally compares against positive 70.0. -/
def openSrcLoudnessFilter (f : ℚ) : Option ℚ :=
  if 70 ≤ f ∧ f ≤ -5 then some f else none

/-- Loudness activation range stated by the spec and by the guard of the
Loudness option at bot.go lines 40 to 46: -70.0 up to -5.0 inclusive. -/
def specLoudnessActive (f : ℚ) : Bool := decide (-70 ≤ f ∧ f ≤ -5)

/-
Claims C3, C4, C9 context: the tenant actor message and reaction handling,
embedded from the musicbot snapshot in guild.go (HandleMessageEvent lines
590 to 617, checkMessageEvent lines 620 to 641, isAllowed lines 643 to 647)
and the reaction handler of unnamed/part_010 lines 878 to 914, with the
command catalog lookups of commands.go lines 659 to 699.
-/

/-- Reaction already present on a chat message; the me flag records whether
this bot placed it. -/
structure Reaction where
  me : Bool
  emoji : Str
  deriving DecidableEq, Repr

/-- Chat message as consumed by the tenant actor. -/
structure Msg where
  channelID : Str
  messageID : Str
  authorID : Str
  authorBot : Bool
  content : Str
  mentions : List Str
  reactions : List Reaction
  deriving DecidableEq, Repr

/-- Catalog command record, from the command struct of commands.go lines
641 to 654 (fields relevant to dispatch). -/
structure Command where
  name : Str
  aliases : List Str
  restrictChannel : Bool
  ownerOnly : Bool
  ack : Str
  shortcut : Str
  deriving DecidableEq, Repr

/-- Provider plugin, reduced to its CanHandle capability test and a name
used to report which plugin ran. -/
structure Plugin where
  pname : Str
  canHandle : Str → Bool

/-- Tenant actor state consulted by event handling. -/
structure GuildSvc where
  pfx : Str
  listenChannels : List Str
  guildOwnerID : Str
  meID : Str
  commands : List Command
  plugins : List Plugin

/-- Mention string of a user, discordgo User.Mention. -/
def mentionOf (meID : Str) : Str := str "<@" ++ meID ++ str ">"

/-- Embedding of checkMessageEvent, guild.go lines 620 to 641: accept when
the body starts with the configured non-empty guild prefix, else with the
default prefix, else with the mention of the bot itself provided the bot is
listed among the mentioned users; the accepted arm strips its prefix and
trims surrounding whitespace. -/
def checkMessageEvent (g : GuildSvc) (m : Msg) : Option Str :=
  if g.pfx ≠ [] ∧ listPrefixOf g.pfx m.content = true then
    some (trimChars (m.content.drop g.pfx.length))
  else if listPrefixOf defaultPfx m.content = true then
    some (trimChars (m.content.drop defaultPfx.length))
  else if m.mentions.any (fun i => i == g.meID) = true ∧
          listPrefixOf (mentionOf g.meID) m.content = true then
    some (trimChars (m.content.drop (mentionOf g.meID).length))
  else none

/-- Embedding of commandByNameOrAlias plus the whitespace split of
matchCommand (commands.go lines 659 to 699): lowercase the first token and
return the first command whose name or alias equals it, together with the
remaining tokens. -/
def matchCommand (cmds : List Command) (arg : Str) : Option (Command × List Str) :=
  match fieldsChars arg with
  | [] => none
  | w :: rest =>
    match cmds.find? (fun c => lowerChars w == c.name || c.aliases.contains (lowerChars w)) with
    | some c => some (c, rest)
    | none => none

/-- Embedding of matchPlugin, commands.go lines 673 to 685: first plugin
whose CanHandle accepts the argument. -/
def matchPlugin (ps : List Plugin) (arg : Str) : Option Plugin :=
  ps.find? (fun p => p.canHandle arg)

/-- Embedding of isAllowed, guild.go lines 643 to 647. -/
def isAllowed (g : GuildSvc) (restrictChannel ownerOnly : Bool) (m : Msg) : Bool :=
  (!restrictChannel || g.listenChannels.contains m.channelID) &&
  (!ownerOnly || m.authorID == g.guildOwnerID)

/-- Observable effect of handling one message event. -/
inductive Effect where
  | runCmd (name : Str) (argv : List Str)
  | runPlug (pluginName : Str) (arg : Str)
  | errorReply (channelID : Str)
  | ackReaction (channelID messageID emoji : Str)
  deriving DecidableEq, Repr

/-- Ack emoji attached on a successful plugin run; value from the
synthesized plugin command of unnamed/part_010 line 188 and the requeue ack
of the spec catalog. -/
def requeueAck : Str := str "☑"

/-- Embedding of runAndRespondToMessage, guild.go lines 649 to 660: run,
then either an error reply to the originating channel or, when the ack
emoji is non-empty, an ack reaction on the triggering message.  runFails is
the outcome of the run, supplied as an oracle. -/
def runAndRespond (m : Msg) (runFails : Bool) (runEffect : Effect) (ack : Str) : List Effect :=
  runEffect ::
    (if runFails then [Effect.errorReply m.channelID]
     else if !ack.isEmpty then [Effect.ackReaction m.channelID m.messageID ack]
     else [])

/-- Embedding of HandleMessageEvent, guild.go lines 590 to 617: prefix
gate, then command match guarded by isAllowed, then the plugin fallback
which is first validated against a synthesized restrictChannel command. -/
def handleMessageEvent (g : GuildSvc) (m : Msg) (runFails : Bool) : List Effect :=
  match checkMessageEvent g m with
  | none => []
  | some arg =>
    match matchCommand g.commands arg with
    | some (cmd, argv) =>
      if isAllowed g cmd.restrictChannel cmd.ownerOnly m then
        runAndRespond m runFails (Effect.runCmd cmd.name argv) cmd.ack
      else []
    | none =>
      if !(isAllowed g true false m) then []
      else
        match matchPlugin g.plugins arg with
        | some p => runAndRespond m runFails (Effect.runPlug p.pname arg) requeueAck
        | none => []

/-- Acceptance condition exactly as the claim words it: the body starts
with the configured prefix, or with the global default prefix, or with a
leading mention of the bot (the bot listed among the mentioned users and
the body beginning with its mention string). -/
def specAcceptsMessage (g : GuildSvc) (m : Msg) : Prop :=
  listPrefixOf g.pfx m.content = true ∨
  listPrefixOf defaultPfx m.content = true ∨
  (m.mentions.any (fun i => i == g.meID) = true ∧
    listPrefixOf (mentionOf g.meID) m.content = true)

/-- Tenant with an empty configured prefix and no catalog, used to separate
the claim wording from the code. -/
def cexSvc : GuildSvc :=
  { pfx := []
    listenChannels := []
    guildOwnerID := str "owner"
    meID := str "B"
    commands := []
    plugins := [] }

/-- Plain message that matches no prefix arm of the code. -/
def cexMsg : Msg :=
  { channelID := str "c1"
    messageID := str "m1"
    authorID := str "u1"
    authorBot := false
    content := str "hello"
    mentions := []
    reactions := [] }

/-
Claim C5 context: syncGuildService.Send at guild.go lines 49 to 58 and
Guild.Notify at guild.go lines 441 to 450 are the same three-way select:
send the event on the events channel, receive on the closed channel, or a
one second timeout.  Close closes both the closed channel and the events
channel.  Go semantics: a select chooses uniformly among its ready cases,
and a send on a closed channel proceeds by panicking.
-/

/-- Cases of the select inside Send. -/
inductive SendCase where
  | deliver
  | closedCase
  | timeoutCase
  deriving DecidableEq, Repr

/-- Possible outcomes of Send. -/
inductive SendResult where
  | delivered
  | closedErr
  | timeoutErr
  | panicked
  deriving DecidableEq, Repr

/-- Readiness of each select case given whether Close already ran and
whether the actor goroutine is ready to receive within one second.  A send
case on a closed channel counts as ready in Go; the timeout case fires only
when no other case becomes ready within the second. -/
def sendCaseEnabled (closed recvReady : Bool) : SendCase → Bool
  | SendCase.deliver => closed || recvReady
  | SendCase.closedCase => closed
  | SendCase.timeoutCase => !closed && !recvReady

/-- Outcome of committing to one select case.  Committing to the send case
after Close is the Go run-time panic for a send on a closed channel. -/
def sendCaseResult (closed : Bool) : SendCase → SendResult
  | SendCase.deliver => if closed then SendResult.panicked else SendResult.delivered
  | SendCase.closedCase => SendResult.closedErr
  | SendCase.timeoutCase => SendResult.timeoutErr

/-
Claim C6 context: Guild.Close at guild.go lines 454 to 464.
-/

/-- Observable pieces of the Guild handle touched by Close: the closed
channel, the events channel, and whether Close waited on the wait group. -/
structure GuildHandle where
  closedFlag : Bool
  eventsClosed : Bool
  waited : Bool
  deriving DecidableEq, Repr

/-- Result of Close. -/
inductive CloseResult where
  | ok
  | closedErr
  deriving DecidableEq, Repr

/-- Embedding of Guild.Close, guild.go lines 454 to 464: if the closed
channel already yields, return the closed error and touch nothing;
otherwise close the closed channel, close the events channel, wait for the
drain, and return nil. -/
def guildClose (h : GuildHandle) : CloseResult × GuildHandle :=
  if h.closedFlag then (CloseResult.closedErr, h)
  else (CloseResult.ok, { closedFlag := true, eventsClosed := true, waited := true })

/-- Freshly created Guild handle, from NewGuild. -/
def freshGuild : GuildHandle :=
  { closedFlag := false, eventsClosed := false, waited := false }

/-
Claim C7 context: detectMusicChannel at guild.go lines 687 to 696 matches
channel names against the case-insensitive whole-word regular expression on
the word music; guild.go lines 120 to 123 fall back to the AFK channel when
no music channel is configured.
-/

/-- Word characters of the regular expression metacharacter for a word
boundary: letters, digits and underscore. -/
def wordChar (c : Char) : Bool := c.isAlphanum || c == '_'

/-- Characters of the word music. -/
def musicWord : Str := str "music"

/-- Occurrence test at one position: the five lowered characters starting
there spell music, and both neighbours (when they exist) are not word
characters. -/
def wholeWordMusicAt (cs : Str) (i : Nat) : Bool :=
  decide ((cs.drop i).take 5 = musicWord) &&
  (decide (i = 0) || !wordChar (cs.getD (i - 1) ' ')) &&
  (decide (i + 5 = cs.length) || !wordChar (cs.getD (i + 5) ' '))

/-- Embedding of the regular expression used by detectMusicChannel: the
lowered name contains music as a whole word at some position. -/
def hasWholeWordMusic (s : Str) : Bool :=
  (List.range (lowerChars s).length).any (fun i => wholeWordMusicAt (lowerChars s) i)

/-- Guild channel as consulted by the detector. -/
structure GChannel where
  id : Str
  name : Str
  isVoice : Bool
  deriving DecidableEq, Repr

/-- Embedding of detectMusicChannel, guild.go lines 687 to 696: first voice
channel whose name matches, empty string when none does. -/
def detectMusicChannel (chans : List GChannel) : Str :=
  match chans.find? (fun ch => ch.isVoice && hasWholeWordMusic ch.name) with
  | some ch => ch.id
  | none => []

/-- Embedding of the idle channel selection of Guild, guild.go lines 120 to
123: the detected music channel when non-empty, the AFK channel otherwise. -/
def idleChannelFor (afkChannelID musicChannel : Str) : Str :=
  if musicChannel.isEmpty then afkChannelID else musicChannel

/-
Claim C8 context: View.Render of the status package, in the second document
of plugins/youtube.go (lines 149 to 187 of the file), together with Clear.
-/

/-- Reference to the current status message held by the view. -/
structure ViewRef where
  channelID : Str
  messageID : Str
  deriving DecidableEq, Repr

/-- Empty reference: no status message. -/
def emptyViewRef : ViewRef := { channelID := [], messageID := [] }

/-- Outcomes of the gateway calls Render can make, supplied as an oracle:
the lookback test result (an error or at least one newer message), the
outcomes of the first and second delete attempts, the outcome of the send,
the identifier of a newly created message, and the outcome of the edit. -/
structure RenderEnv where
  tooFarBack : Bool
  delete1Ok : Bool
  delete2Ok : Bool
  sendOk : Bool
  newMessageID : Str
  editOk : Bool
  deriving DecidableEq, Repr

/-- Gateway calls issued by Render, in order. -/
inductive ViewAction where
  | deleteMsg (channelID messageID : Str)
  | sendEmbed (channelID : Str)
  | editEmbed (channelID messageID : Str)
  | addReaction (channelID messageID emoji : Str)
  deriving DecidableEq, Repr

/-- Creation arm of Render: send the embed; on success record the new
reference and attach one reaction per registered button; on failure keep
the current reference and report failure. -/
def viewCreate (buttons : List Str) (channelID : Str) (env : RenderEnv) (cur : ViewRef) :
    List ViewAction × ViewRef × Bool :=
  if env.sendOk then
    (ViewAction.sendEmbed channelID ::
       buttons.map (fun b => ViewAction.addReaction channelID env.newMessageID b),
     { channelID := channelID, messageID := env.newMessageID }, true)
  else ([ViewAction.sendEmbed channelID], cur, false)

/-- Embedding of View.Render: when a status message exists but sits in a
different channel or fails the one-message lookback test, delete it (one
retry when the first delete fails) and create a replacement; when it exists
in the requested channel within lookback, edit it in place; when none
exists, create one.  Returns the gateway calls in order, the resulting
reference, and whether Render succeeded. -/
def viewRender (buttons : List Str) (ref : ViewRef) (channelID : Str) (env : RenderEnv) :
    List ViewAction × ViewRef × Bool :=
  if (!ref.channelID.isEmpty && !ref.messageID.isEmpty) &&
     (ref.channelID != channelID || env.tooFarBack) then
    let delActs :=
      if env.delete1Ok then [ViewAction.deleteMsg ref.channelID ref.messageID]
      else [ViewAction.deleteMsg ref.channelID ref.messageID,
            ViewAction.deleteMsg ref.channelID ref.messageID]
    let refAfter := if env.delete1Ok || env.delete2Ok then emptyViewRef else ref
    let created := viewCreate buttons channelID env refAfter
    (delActs ++ created.1, created.2)
  else if !ref.channelID.isEmpty && !ref.messageID.isEmpty then
    ([ViewAction.editEmbed ref.channelID ref.messageID], ref, env.editOk)
  else
    viewCreate buttons channelID env ref

/-
Claim C9 context: HandleReactEvent of unnamed/part_010 lines 878 to 914 and
requeueable of guild.go lines 709 to 719.
-/

/-- Modelled from the spec: the shortcut emoji of the requeue command.  The
requeue command record itself is referenced throughout the sources but its
definition is not among them; the spec catalog gives its shortcut. -/
def requeueShortcut : Str := str "🔂"

/-- Status message reference exposed by NowPlaying. -/
structure NowPlayingRef where
  statusChannelID : Str
  statusMessageID : Str
  deriving DecidableEq, Repr

/-- Embedding of requeueable, guild.go lines 709 to 719: not authored by a
bot, and this bot reacted on it with the requeue shortcut. -/
def requeueable (m : Msg) : Bool :=
  !m.authorBot && m.reactions.any (fun r => r.me && r.emoji == requeueShortcut)

/-- Whether the reaction sits on the current status message. -/
def statusHit (np : Option NowPlayingRef) (channelID messageID : Str) : Bool :=
  match np with
  | some r => channelID == r.statusChannelID && messageID == r.statusMessageID
  | none => false

/-- Outcome of handling one reaction event. -/
inductive ReactOutcome where
  | rejected
  | ranShortcut (cmdName : Str)
  | synthesized (effects : List Effect)
  deriving DecidableEq, Repr

/-- Embedding of HandleReactEvent, unnamed/part_010 lines 878 to 914: when
the reaction sits on the current status message and some catalog command
carries the reacted emoji as its shortcut, run that command; otherwise,
when the emoji is the requeue shortcut, recover the reacted message (cache
then direct fetch, abstracted as an optional recovery) and, when it is
requeueable, re-enter message handling on a message event synthesized from
it; every other reaction falls through with no effect. -/
def handleReactEvent (g : GuildSvc) (np : Option NowPlayingRef)
    (channelID messageID emoji : Str) (recovered : Option Msg) (runFails : Bool) :
    ReactOutcome :=
  match
    (if statusHit np channelID messageID then
       g.commands.find? (fun c => c.shortcut == emoji)
     else none) with
  | some cmd => ReactOutcome.ranShortcut cmd.name
  | none =>
    if emoji != requeueShortcut then ReactOutcome.rejected
    else
      match recovered with
      | none => ReactOutcome.rejected
      | some msg =>
        if requeueable msg then ReactOutcome.synthesized (handleMessageEvent g msg runFails)
        else ReactOutcome.rejected

/-
Claim C10 context: latencies at guild.go lines 324 to 330 (same function at
bot.go lines 224 to 232).  Timestamps are embedded as integer nanosecond
counts; each latency is the difference of consecutive timestamps divided by
ten to the sixth, in milliseconds.
-/

/-- Nanoseconds per millisecond. -/
def nanosPerMilli : ℚ := 1000000

/-- Consecutive differences behind latencyList, in milliseconds. -/
def consecDiffs : Int → List Int → List ℚ
  | _, [] => []
  | prev, t :: rest => ((t - prev : Int) : ℚ) / nanosPerMilli :: consecDiffs t rest

/-- Embedding of latencies, guild.go lines 324 to 330.  On a non-empty
timestamp list the function allocates length minus one slots and fills them
with consecutive differences; on the empty list the Go allocation make with
length -1 panics, embedded as none. -/
def latencyList : List Int → Option (List ℚ)
  | [] => none
  | t :: rest => some (consecDiffs t rest)

/-- Counterexample for claim C3 as stated: with an empty configured prefix
the claim wording accepts every message, because every body starts with the
empty prefix, yet checkMessageEvent explicitly requires a non-empty guild
prefix and rejects this message, and nothing runs. -/
theorem message_prefix_gate_cex :
    specAcceptsMessage cexSvc cexMsg ∧
    checkMessageEvent cexSvc cexMsg = none ∧
    handleMessageEvent cexSvc cexMsg false = [] := by
  refine ⟨?_, by decide, by decide⟩
  unfold specAcceptsMessage
  left
  decide

/-- Claim C3, amended: the actor proceeds to command matching exactly when
the body starts with the non-empty configured prefix, or with the default
prefix, or with a leading mention of the bot; each accepted arm strips the
matched prefix (and surrounding whitespace) to produce the argument string,
and a rejected message produces no effect at all. -/
theorem message_prefix_gate (g : GuildSvc) (m : Msg) :
    ((checkMessageEvent g m).isSome ↔
      ((g.pfx ≠ [] ∧ listPrefixOf g.pfx m.content = true) ∨
       listPrefixOf defaultPfx m.content = true ∨
       (m.mentions.any (fun i => i == g.meID) = true ∧
        listPrefixOf (mentionOf g.meID) m.content = true))) ∧
    (checkMessageEvent g m = none → ∀ rf, handleMessageEvent g m rf = []) ∧
    (g.pfx ≠ [] → listPrefixOf g.pfx m.content = true →
      checkMessageEvent g m = some (trimChars (m.content.drop g.pfx.length))) ∧
    (¬(g.pfx ≠ [] ∧ listPrefixOf g.pfx m.content = true) →
      listPrefixOf defaultPfx m.content = true →
      checkMessageEvent g m = some (trimChars (m.content.drop defaultPfx.length))) ∧
    (¬(g.pfx ≠ [] ∧ listPrefixOf g.pfx m.content = true) →
      listPrefixOf defaultPfx m.content = false →
      m.mentions.any (fun i => i == g.meID) = true →
      listPrefixOf (mentionOf g.meID) m.content = true →
      checkMessageEvent g m =
        some (trimChars (m.content.drop (mentionOf g.meID).length))) := by
  refine ⟨?_, ?_, ?_, ?_, ?_⟩
  · unfold checkMessageEvent
    split_ifs with h1 h2 h3
    · simpa using Or.inl h1
    · simpa using Or.inr (Or.inl h2)
    · simpa using Or.inr (Or.inr h3)
    · simp only [Option.isSome_none, Bool.false_eq_true, false_iff]
      tauto
  · intro hnone rf
    unfold handleMessageEvent
    rw [hnone]
  · intro hne hp
    unfold checkMessageEvent
    rw [if_pos ⟨hne, hp⟩]
  · intro h1 h2
    unfold checkMessageEvent
    rw [if_neg h1, if_pos h2]
  · intro h1 h2 h3 h4
    unfold checkMessageEvent
    rw [if_neg h1, if_neg (by simp [h2]), if_pos ⟨h3, h4⟩]

/-- Witness for claim C3 on a tenant with prefix exclamation mark and the
message body of an exclamation mark followed by the skip word. -/
theorem message_prefix_gate_witness :
    checkMessageEvent
      { pfx := str "!"
        listenChannels := []
        guildOwnerID := str "owner"
        meID := str "B"
        commands := []
        plugins := [] }
      { channelID := str "c1"
        messageID := str "m1"
        authorID := str "u1"
        authorBot := false
        content := str "! skip"
        mentions := []
        reactions := [] } = some (str "skip") := by
  have h := (message_prefix_gate
    { pfx := str "!"
      listenChannels := []
      guildOwnerID := str "owner"
      meID := str "B"
      commands := []
      plugins := [] }
    { channelID := str "c1"
      messageID := str "m1"
      authorID := str "u1"
      authorBot := false
      content := str "! skip"
      mentions := []
      reactions := [] }).2.2.1 (by decide) (by decide)
  rw [h]
  decide

/-- Claim C4: a command whose restrictChannel flag is set, including the
synthesized plugin command, runs only when the originating channel is
whitelisted; when the channel test fails the handler produces no effect at
all, in particular no error reply. -/
theorem restrict_channel_acl (g : GuildSvc) (m : Msg) (rf : Bool) :
    (∀ arg cmd argv, checkMessageEvent g m = some arg →
      matchCommand g.commands arg = some (cmd, argv) →
      cmd.restrictChannel = true →
      g.listenChannels.contains m.channelID = false →
      handleMessageEvent g m rf = []) ∧
    (∀ arg, checkMessageEvent g m = some arg →
      matchCommand g.commands arg = none →
      g.listenChannels.contains m.channelID = false →
      handleMessageEvent g m rf = []) ∧
    (∀ name argv, Effect.runCmd name argv ∈ handleMessageEvent g m rf →
      ∀ arg cmd argv2, checkMessageEvent g m = some arg →
        matchCommand g.commands arg = some (cmd, argv2) →
        cmd.restrictChannel = true →
        g.listenChannels.contains m.channelID = true) := by
  refine ⟨?_, ?_, ?_⟩
  · intro arg cmd argv hchk hmatch hres hlisten
    unfold handleMessageEvent
    rw [hchk]
    simp only [hmatch]
    have hall : isAllowed g cmd.restrictChannel cmd.ownerOnly m = false := by
      unfold isAllowed
      rw [hres, hlisten]
      simp
    rw [hall]
    simp
  · intro arg hchk hmatch hlisten
    unfold handleMessageEvent
    rw [hchk]
    simp only [hmatch]
    have hall : isAllowed g true false m = false := by
      unfold isAllowed
      rw [hlisten]
      simp
    rw [hall]
    simp
  · intro name argv hmem arg cmd argv2 hchk hmatch hres
    by_contra hfalse
    have hlisten : g.listenChannels.contains m.channelID = false := by
      cases hl : g.listenChannels.contains m.channelID
      · rfl
      · exact absurd hl hfalse
    unfold handleMessageEvent at hmem
    rw [hchk] at hmem
    simp only [hmatch] at hmem
    have hall : isAllowed g cmd.restrictChannel cmd.ownerOnly m = false := by
      unfold isAllowed
      rw [hres, hlisten]
      simp
    rw [hall] at hmem
    simp at hmem

/-- Witness for claim C4: a restricted skip command invoked outside the
whitelisted channels produces no effect. -/
theorem restrict_channel_acl_witness :
    handleMessageEvent
      { pfx := str "#!"
        listenChannels := [str "allowed"]
        guildOwnerID := str "owner"
        meID := str "B"
        commands :=
          [{ name := str "skip"
             aliases := []
             restrictChannel := true
             ownerOnly := false
             ack := []
             shortcut := str "⏭" }]
        plugins := [] }
      { channelID := str "elsewhere"
        messageID := str "m1"
        authorID := str "u1"
        authorBot := false
        content := str "#!skip"
        mentions := []
        reactions := [] } false = [] := by
  exact (restrict_channel_acl _ _ false).1 (str "skip")
    { name := str "skip"
      aliases := []
      restrictChannel := true
      ownerOnly := false
      ack := []
      shortcut := str "⏭" } [] (by decide) (by decide) rfl (by decide)

/-- Helper: successful admissions append in order. -/
theorem queuePutAll_ok {α : Type} (q : List α) (xs : List α)
    (h : q.length + xs.length ≤ queueCapacity) :
    queuePutAll q xs = Except.ok (q ++ xs) := by
  induction xs generalizing q with
  | nil => simp [queuePutAll]
  | cons x rest ih =>
    have hx : q.length + rest.length + 1 ≤ queueCapacity := by
      simp only [List.length_cons] at h
      omega
    have hlt : ¬ queueCapacity ≤ q.length := by omega
    have step : queuePut q x = Except.ok (q ++ [x]) := by
      simp [queuePut, hlt]
    have hrest : (q ++ [x]).length + rest.length ≤ queueCapacity := by
      simp only [List.length_append, List.length_cons, List.length_nil]
      omega
    have htail := ih (q ++ [x]) hrest
    simp only [queuePutAll, step]
    rw [htail]
    simp

/-- Claim C1: with ten admitted plays in the queue a further put fails with
queueFull and returns an error rather than mutating or blocking; any
sequence of at most ten admissions from an empty queue all succeed and
leave the plays in insertion order, and dequeue removes from the head, so
dequeue order equals admission order. -/
theorem queue_full_rejects_and_fifo (q : List Str) (x : Str) (xs : List Str)
    (hfull : q.length = 10) (hsmall : xs.length ≤ 10) :
    queuePut q x = Except.error PutErr.queueFull ∧
    queuePutAll ([] : List Str) xs = Except.ok xs ∧
    (∀ (y : Str) (ys : List Str), queueTake (y :: ys) = some (y, ys)) := by
  refine ⟨?_, ?_, ?_⟩
  · simp [queuePut, queueCapacity, hfull]
  · simpa using queuePutAll_ok ([] : List Str) xs (by simpa [queueCapacity] using hsmall)
  · intro y ys
    rfl

/-- Witness for claim C1 at a concrete full queue and a concrete admission
sequence. -/
theorem queue_full_rejects_and_fifo_witness :
    queuePut (List.replicate 10 (str "a")) (str "b") = Except.error PutErr.queueFull ∧
    queuePutAll ([] : List Str) [str "a", str "b", str "c"] =
      Except.ok [str "a", str "b", str "c"] ∧
    queueTake [str "a", str "b", str "c"] = some (str "a", [str "b", str "c"]) := by
  have h := queue_full_rejects_and_fifo (List.replicate 10 (str "a")) (str "b")
    [str "a", str "b", str "c"] (by decide) (by decide)
  exact ⟨h.1, h.2.1, h.2.2 (str "a") [str "b", str "c"]⟩

/-- Claim C2, recorded against the code: the filter condition written in
openSrcFunc compares loudness against positive 70.0, which no rational
satisfies together with the upper bound -5.0, so the loudness filter is
never applied; yet the range stated by the spec, by the field documentation
of GuildConfig.Loudness and by the guard in the Loudness option of bot.go
marks -30 (and the endpoints -70 and -5) as active and 0, -70.0001,
-4.9999 as inactive. -/
theorem loudnorm_filter_never_applied :
    (∀ f : ℚ, openSrcLoudnessFilter f = none) ∧
    specLoudnessActive (-30) = true ∧
    openSrcLoudnessFilter (-30) = none ∧
    specLoudnessActive (-70) = true ∧
    specLoudnessActive (-5) = true ∧
    specLoudnessActive 0 = false ∧
    specLoudnessActive (-700001 / 10000) = false ∧
    specLoudnessActive (-49999 / 10000) = false := by
  refine ⟨?_, by decide, ?_, by decide, by decide, by decide, ?_, ?_⟩
  · intro f
    unfold openSrcLoudnessFilter
    split
    · next h => linarith [h.1, h.2]
    · rfl
  · unfold openSrcLoudnessFilter
    split
    · next h => linarith [h.1, h.2]
    · rfl
  · unfold specLoudnessActive
    rw [decide_eq_false_iff_not]
    intro h
    have h1 := h.1
    norm_num at h1
  · unfold specLoudnessActive
    rw [decide_eq_false_iff_not]
    intro h
    have h2 := h.2
    norm_num at h2

/-- Claim C5, recorded against the code: after Close both the send case and
the closed case of the select inside Send are ready, and committing to the
send case panics (Go send on a closed channel) instead of returning the
closed error; the timeout case is the one taken when the actor is open and
no receiver turns up within the second, and only then. -/
theorem send_after_close_may_panic :
    sendCaseEnabled true false SendCase.deliver = true ∧
    sendCaseResult true SendCase.deliver = SendResult.panicked ∧
    sendCaseEnabled true false SendCase.closedCase = true ∧
    sendCaseResult true SendCase.closedCase = SendResult.closedErr ∧
    sendCaseEnabled false false SendCase.timeoutCase = true ∧
    sendCaseResult false SendCase.timeoutCase = SendResult.timeoutErr ∧
    sendCaseEnabled false true SendCase.timeoutCase = false ∧
    sendCaseResult false SendCase.deliver = SendResult.delivered := by
  decide

/-- Claim C6: the first Close on a fresh handle returns nil having closed
both channels and waited for the drain, and Close on an already closed
handle returns the closed error and performs no further close operation,
leaving the handle exactly as it was. -/
theorem close_first_ok_then_closed (h : GuildHandle) (hclosed : h.closedFlag = true) :
    guildClose freshGuild =
      (CloseResult.ok, { closedFlag := true, eventsClosed := true, waited := true }) ∧
    guildClose h = (CloseResult.closedErr, h) ∧
    guildClose (guildClose freshGuild).2 = (CloseResult.closedErr, (guildClose freshGuild).2) := by
  refine ⟨by decide, ?_, by decide⟩
  simp [guildClose, hclosed]

/-- Witness for claim C6 on the handle produced by the first Close. -/
theorem close_first_ok_then_closed_witness :
    guildClose { closedFlag := true, eventsClosed := true, waited := true } =
      (CloseResult.closedErr, { closedFlag := true, eventsClosed := true, waited := true }) :=
  (close_first_ok_then_closed
    { closedFlag := true, eventsClosed := true, waited := true } rfl).2.1

/-- Helper: find? returns the first element satisfying the test. -/
theorem find?_first {α : Type} (p : α → Bool) (pre : List α) (c : α) (post : List α)
    (hpre : ∀ x ∈ pre, p x = false) (hc : p c = true) :
    (pre ++ c :: post).find? p = some c := by
  induction pre with
  | nil => simp [List.find?_cons, hc]
  | cons a rest ih =>
    have ha := hpre a (by simp)
    simp only [List.cons_append, List.find?_cons, ha]
    exact ih (fun x hx => hpre x (by simp [hx]))

/-- Claim C7: the detector name test matches music, music-room and Music;
the name music-bot-output also matches, and indeed contains music as a
whole word, since the regular expression treats the hyphen as a word
boundary; the detector returns the identifier of the first voice channel
whose name matches; and when no channel matches it returns the empty
identifier, in which case the idle channel falls back to the AFK channel. -/
theorem detect_music_channel_spec (pre : List GChannel) (c : GChannel) (post : List GChannel)
    (chans : List GChannel) (afk : Str)
    (hpre : ∀ ch ∈ pre, (ch.isVoice && hasWholeWordMusic ch.name) = false)
    (hc : (c.isVoice && hasWholeWordMusic c.name) = true)
    (hnone : ∀ ch ∈ chans, (ch.isVoice && hasWholeWordMusic ch.name) = false) :
    hasWholeWordMusic (str "music") = true ∧
    hasWholeWordMusic (str "music-room") = true ∧
    hasWholeWordMusic (str "Music") = true ∧
    hasWholeWordMusic (str "music-bot-output") = true ∧
    hasWholeWordMusic (str "musical") = false ∧
    detectMusicChannel (pre ++ c :: post) = c.id ∧
    detectMusicChannel chans = [] ∧
    idleChannelFor afk (detectMusicChannel chans) = afk := by
  have hfind := find?_first (fun ch => ch.isVoice && hasWholeWordMusic ch.name) pre c post hpre hc
  have hmiss : chans.find? (fun ch => ch.isVoice && hasWholeWordMusic ch.name) = none := by
    rw [List.find?_eq_none]
    intro x hx
    simp [hnone x hx]
  have hdet : detectMusicChannel chans = [] := by
    unfold detectMusicChannel
    rw [hmiss]
  refine ⟨by decide, by decide, by decide, by decide, by decide, ?_, hdet, ?_⟩
  · unfold detectMusicChannel
    rw [hfind]
  · rw [hdet]
    rfl

/-- Witness for claim C7 on a concrete channel list: a matching text
channel and a non-matching voice channel are both skipped and the first
matching voice channel wins; a list with no match falls back to the AFK
channel. -/
theorem detect_music_channel_spec_witness :
    detectMusicChannel
      [{ id := str "1", name := str "music", isVoice := false },
       { id := str "2", name := str "general", isVoice := true },
       { id := str "3", name := str "Music Room", isVoice := true },
       { id := str "4", name := str "music", isVoice := true }] = str "3" ∧
    detectMusicChannel [{ id := str "5", name := str "general", isVoice := true }] = [] ∧
    idleChannelFor (str "afk")
      (detectMusicChannel [{ id := str "5", name := str "general", isVoice := true }]) =
      str "afk" := by
  have h := detect_music_channel_spec
    [{ id := str "1", name := str "music", isVoice := false },
     { id := str "2", name := str "general", isVoice := true }]
    { id := str "3", name := str "Music Room", isVoice := true }
    [{ id := str "4", name := str "music", isVoice := true }]
    [{ id := str "5", name := str "general", isVoice := true }]
    (str "afk") (by decide) (by decide) (by decide)
  exact ⟨h.2.2.2.2.2.1, h.2.2.2.2.2.2.1, h.2.2.2.2.2.2.2⟩

/-- Claim C8: when a status message exists but sits in another channel or
fails the lookback test, Render deletes it, retrying the delete exactly
once when the first attempt fails and not at all when it succeeds, then
creates the replacement in the requested channel and attaches one reaction
per registered shortcut, recording the new reference; when the existing
message is in the requested channel and within lookback, Render edits it in
place and the reference is unchanged. -/
theorem view_render_reconcile (buttons : List Str) (ref : ViewRef) (channelID : Str)
    (env : RenderEnv) :
    (ref.channelID.isEmpty = false → ref.messageID.isEmpty = false →
      (ref.channelID != channelID || env.tooFarBack) = true → env.sendOk = true →
      viewRender buttons ref channelID env =
        ((if env.delete1Ok then [ViewAction.deleteMsg ref.channelID ref.messageID]
          else [ViewAction.deleteMsg ref.channelID ref.messageID,
                ViewAction.deleteMsg ref.channelID ref.messageID]) ++
          ViewAction.sendEmbed channelID ::
            buttons.map (fun b => ViewAction.addReaction channelID env.newMessageID b),
         { channelID := channelID, messageID := env.newMessageID }, true)) ∧
    (ref.channelID.isEmpty = false → ref.messageID.isEmpty = false →
      ref.channelID = channelID → env.tooFarBack = false →
      viewRender buttons ref channelID env =
        ([ViewAction.editEmbed ref.channelID ref.messageID], ref, env.editOk)) := by
  constructor
  · intro h1 h2 h3 h4
    have hcond : ((!ref.channelID.isEmpty && !ref.messageID.isEmpty) &&
        (ref.channelID != channelID || env.tooFarBack)) = true := by
      rw [h1, h2, h3]
      rfl
    unfold viewRender
    rw [hcond]
    simp only [if_true]
    unfold viewCreate
    rw [h4]
    simp
  · intro h1 h2 h3 h4
    have hcond : ((!ref.channelID.isEmpty && !ref.messageID.isEmpty) &&
        (ref.channelID != channelID || env.tooFarBack)) = false := by
      rw [h3, h4, bne_self_eq_false]
      simp
    have hexists : (!ref.channelID.isEmpty && !ref.messageID.isEmpty) = true := by
      rw [h1, h2]
      rfl
    unfold viewRender
    rw [hcond, hexists]
    simp

/-- Witness for claim C8: a status message in another channel is deleted
twice (the first delete fails), the replacement is created in the requested
channel and one reaction per shortcut is attached; a status message already
in place is edited. -/
theorem view_render_reconcile_witness :
    viewRender [str "⏯", str "⏭"] { channelID := str "old", messageID := str "m7" }
      (str "new")
      { tooFarBack := false, delete1Ok := false, delete2Ok := true,
        sendOk := true, newMessageID := str "m8", editOk := true } =
      ([ViewAction.deleteMsg (str "old") (str "m7"),
        ViewAction.deleteMsg (str "old") (str "m7"),
        ViewAction.sendEmbed (str "new"),
        ViewAction.addReaction (str "new") (str "m8") (str "⏯"),
        ViewAction.addReaction (str "new") (str "m8") (str "⏭")],
       { channelID := str "new", messageID := str "m8" }, true) ∧
    viewRender [] { channelID := str "new", messageID := str "m8" } (str "new")
      { tooFarBack := false, delete1Ok := true, delete2Ok := true,
        sendOk := true, newMessageID := str "m9", editOk := true } =
      ([ViewAction.editEmbed (str "new") (str "m8")],
       { channelID := str "new", messageID := str "m8" }, true) := by
  constructor
  · have h := (view_render_reconcile [str "⏯", str "⏭"]
      { channelID := str "old", messageID := str "m7" } (str "new")
      { tooFarBack := false, delete1Ok := false, delete2Ok := true,
        sendOk := true, newMessageID := str "m8", editOk := true }).1
      (by decide) (by decide) (by decide) (by decide)
    rw [h]
    decide
  · have h := (view_render_reconcile []
      { channelID := str "new", messageID := str "m8" } (str "new")
      { tooFarBack := false, delete1Ok := true, delete2Ok := true,
        sendOk := true, newMessageID := str "m9", editOk := true }).2
      (by decide) (by decide) (by decide) (by decide)
    rw [h]

/-- Claim C9: a reaction runs a catalog command only when it sits on the
current status message (the command carrying the reacted emoji as its
shortcut), or when the emoji is the requeue shortcut and the recovered
message was authored by a non-bot user and carries a prior requeue reaction
by this bot, in which case message handling re-runs on the synthesized
event; a reaction that is neither on the status message nor the requeue
emoji is rejected with no effect. -/
theorem react_event_dispatch (g : GuildSvc) (np : Option NowPlayingRef)
    (channelID messageID emoji : Str) (recovered : Option Msg) (rf : Bool) :
    (∀ name, handleReactEvent g np channelID messageID emoji recovered rf =
        ReactOutcome.ranShortcut name →
      statusHit np channelID messageID = true ∧
      ∃ c ∈ g.commands, c.shortcut = emoji ∧ c.name = name) ∧
    (∀ eff, handleReactEvent g np channelID messageID emoji recovered rf =
        ReactOutcome.synthesized eff →
      emoji = requeueShortcut ∧
      ∃ msg, recovered = some msg ∧ msg.authorBot = false ∧
        (∃ r ∈ msg.reactions, r.me = true ∧ r.emoji = requeueShortcut) ∧
        eff = handleMessageEvent g msg rf) ∧
    (statusHit np channelID messageID = false → emoji ≠ requeueShortcut →
      handleReactEvent g np channelID messageID emoji recovered rf =
        ReactOutcome.rejected) ∧
    (∀ cmd, statusHit np channelID messageID = true →
      g.commands.find? (fun c => c.shortcut == emoji) = some cmd →
      handleReactEvent g np channelID messageID emoji recovered rf =
        ReactOutcome.ranShortcut cmd.name) := by
  refine ⟨?_, ?_, ?_, ?_⟩
  · intro name h
    unfold handleReactEvent at h
    cases hhit : statusHit np channelID messageID with
    | false =>
      rw [hhit] at h
      simp only [if_false, Bool.false_eq_true] at h
      by_cases he : emoji = requeueShortcut
      · simp only [he, bne_self_eq_false] at h
        cases recovered with
        | none => simp at h
        | some msg =>
          by_cases hr : requeueable msg = true
          · simp [hr] at h
          · simp [hr] at h
      · have hb : (emoji != requeueShortcut) = true := bne_iff_ne.mpr he
        simp [hb] at h
    | true =>
      rw [hhit] at h
      simp only [if_true] at h
      cases hf : g.commands.find? (fun c => c.shortcut == emoji) with
      | none =>
        rw [hf] at h
        by_cases he : emoji = requeueShortcut
        · simp only [he, bne_self_eq_false] at h
          cases recovered with
          | none => simp at h
          | some msg =>
            by_cases hr : requeueable msg = true
            · simp [hr] at h
            · simp [hr] at h
        · have hb : (emoji != requeueShortcut) = true := bne_iff_ne.mpr he
          simp [hb] at h
      | some c =>
        rw [hf] at h
        simp only [ReactOutcome.ranShortcut.injEq] at h
        refine ⟨rfl, c, List.mem_of_find?_eq_some hf, ?_, h⟩
        have := List.find?_some hf
        simpa using this
  · intro eff h
    unfold handleReactEvent at h
    cases hcase : (if statusHit np channelID messageID then
        g.commands.find? (fun c => c.shortcut == emoji) else none) with
    | some c =>
      rw [hcase] at h
      simp at h
    | none =>
      rw [hcase] at h
      by_cases he : emoji = requeueShortcut
      · simp only [he, bne_self_eq_false, if_false, Bool.false_eq_true] at h
        cases hrec : recovered with
        | none =>
          rw [hrec] at h
          simp at h
        | some msg =>
          rw [hrec] at h
          by_cases hr : requeueable msg = true
          · simp only [hr, if_true, ReactOutcome.synthesized.injEq] at h
            have hbot : msg.authorBot = false := by
              by_contra hbt
              have hbt2 : msg.authorBot = true := by
                cases hb2 : msg.authorBot
                · exact absurd hb2 hbt
                · rfl
              unfold requeueable at hr
              rw [hbt2] at hr
              simp at hr
            have hrxn : ∃ r ∈ msg.reactions, r.me = true ∧ r.emoji = requeueShortcut := by
              unfold requeueable at hr
              rw [hbot] at hr
              simp only [Bool.not_false, Bool.true_and, List.any_eq_true] at hr
              obtain ⟨r, hrmem, hrp⟩ := hr
              refine ⟨r, hrmem, ?_⟩
              simpa [Bool.and_eq_true] using hrp
            exact ⟨he, msg, rfl, hbot, hrxn, h.symm⟩
          · simp [hr] at h
      · have hb : (emoji != requeueShortcut) = true := bne_iff_ne.mpr he
        simp [hb] at h
  · intro hhit hne
    unfold handleReactEvent
    rw [hhit]
    have hb : (emoji != requeueShortcut) = true := bne_iff_ne.mpr hne
    simp [hb]
  · intro cmd hhit hf
    unfold handleReactEvent
    rw [hhit]
    simp only [if_true]
    rw [hf]

/-- Witness for claim C9: a skip reaction on the current status message
runs the skip command; a requeue reaction on a recovered non-bot message
carrying the prior bot requeue reaction re-enters message handling; a
stray reaction elsewhere is rejected. -/
theorem react_event_dispatch_witness :
    handleReactEvent
      { pfx := str "#!"
        listenChannels := []
        guildOwnerID := str "owner"
        meID := str "B"
        commands :=
          [{ name := str "skip"
             aliases := []
             restrictChannel := true
             ownerOnly := false
             ack := []
             shortcut := str "⏭" }]
        plugins := [] }
      (some { statusChannelID := str "c1", statusMessageID := str "s1" })
      (str "c1") (str "s1") (str "⏭") none false =
      ReactOutcome.ranShortcut (str "skip") ∧
    handleReactEvent
      { pfx := str "#!"
        listenChannels := []
        guildOwnerID := str "owner"
        meID := str "B"
        commands := []
        plugins := [] }
      none (str "c1") (str "m2") (str "x") none false = ReactOutcome.rejected := by
  constructor
  · exact (react_event_dispatch _ _ _ _ _ _ _).2.2.2
      { name := str "skip"
        aliases := []
        restrictChannel := true
        ownerOnly := false
        ack := []
        shortcut := str "⏭" } (by decide) (by decide)
  · exact (react_event_dispatch
      { pfx := str "#!"
        listenChannels := []
        guildOwnerID := str "owner"
        meID := str "B"
        commands := []
        plugins := [] }
      none (str "c1") (str "m2") (str "x") none false).2.2.1 (by decide) (by decide)

/-- Helper: length of the consecutive difference list. -/
theorem consecDiffs_length (p : Int) (ts : List Int) :
    (consecDiffs p ts).length = ts.length := by
  induction ts generalizing p with
  | nil => rfl
  | cons t rest ih => simp [consecDiffs, ih]

/-- Helper: each consecutive difference is the gap between neighbouring
timestamps divided into milliseconds. -/
theorem consecDiffs_getD (p : Int) (ts : List Int) (i : Nat) (h : i < ts.length) :
    (consecDiffs p ts).getD i 0 =
      (((p :: ts).getD (i + 1) 0 - (p :: ts).getD i 0 : Int) : ℚ) / nanosPerMilli := by
  induction ts generalizing p i with
  | nil => simp at h
  | cons t rest ih =>
    cases i with
    | zero => simp [consecDiffs]
    | succ j =>
      have hj : j < rest.length := by simpa using h
      have := ih t j hj
      simpa [consecDiffs] using this

/-- Claim C10: on every non-empty timestamp list latencies yields exactly
length minus one values, each the difference of consecutive timestamps in
milliseconds; on the empty list the allocation of a slice of length -1
panics, so callers must pass a non-empty list. -/
theorem latencies_total_on_nonempty (ts : List Int) (hne : ts ≠ []) :
    latencyList [] = none ∧
    ∃ ls, latencyList ts = some ls ∧ ls.length + 1 = ts.length ∧
      ∀ i, i + 1 < ts.length →
        ls.getD i 0 = ((ts.getD (i + 1) 0 - ts.getD i 0 : Int) : ℚ) / nanosPerMilli := by
  refine ⟨rfl, ?_⟩
  match ts, hne with
  | t :: rest, _ =>
    refine ⟨consecDiffs t rest, rfl, by simp [consecDiffs_length], ?_⟩
    intro i hi
    have hlt : i < rest.length := by simpa using hi
    simpa using consecDiffs_getD t rest i hlt

/-- Witness for claim C10 at a concrete three-element timestamp list. -/
theorem latencies_total_on_nonempty_witness :
    ∃ ls, latencyList [0, 2000000, 5000000] = some ls ∧ ls.length + 1 = 3 ∧
      ∀ i, i + 1 < 3 →
        ls.getD i 0 =
          ((([0, 2000000, 5000000] : List Int).getD (i + 1) 0 -
            ([0, 2000000, 5000000] : List Int).getD i 0 : Int) : ℚ) / nanosPerMilli :=
  (latencies_total_on_nonempty [0, 2000000, 5000000] (by decide)).2

end Musicbot
